import Mathlib

/-!
Formal model of the Nestra ML-analytics training utilities.

Shallow embedding of:
  src/backend/src/modules/ml-analytics/training/utils/trainer.py
  src/backend/src/modules/ml-analytics/training/utils/data_loader.py
  src/backend/src/modules/ml-analytics/training/explain_model.py

Python floats are modelled as exact rationals; PyTorch tensors are modelled
with explicit reference semantics (a tensor is an address into a storage
heap), because the early-stopping checkpoint logic depends on the difference
between copying a dict of tensor references and copying tensor values.
-/

namespace Nestra

/-! Section: reference semantics for PyTorch parameter storages (trainer.py). -/

/-- Storage heap: cell `a` holds the current value of the tensor whose storage
address is `a`.  `optimizer.step()` mutates these cells in place. -/
abbrev Heap := List ℚ

/-- A PyTorch `state_dict`: an ordered dict mapping parameter names to tensors.
A tensor is a reference to a storage cell, so a state dict is modelled as the
list of storage addresses of its tensors (parameter names are omitted; the
list order is the dict order). -/
structure StateDict where
  addrs : List Nat
deriving DecidableEq

/-- `model.state_dict()` (PyTorch): returns a dict whose tensors are references
to the live parameter storages, not copies of their values. -/
def stateDict (m : StateDict) : StateDict := m

/-- Python `dict.copy()` on a state dict: a shallow copy, i.e. a new dict whose
entries are the same tensor references (trainer.py line 42 / 49). -/
def dictCopy (d : StateDict) : StateDict := d

/-- Read the current values of the tensors of a state dict out of the heap. -/
def readParams (h : Heap) (d : StateDict) : List ℚ :=
  d.addrs.map (fun a => h.getD a 0)

/-- Write values in place into the storages referenced by a state dict: the
effect of `optimizer.step()` on the live parameters during one epoch. -/
def writeParams (h : Heap) (d : StateDict) (vs : List ℚ) : Heap :=
  (d.addrs.zip vs).foldl (fun acc p => acc.set p.1 p.2) h

/-- `model.load_state_dict(saved)`: copies the saved tensors' current values
into the live parameter storages (trainer.py line 243). -/
def loadStateDict (h : Heap) (live saved : StateDict) : Heap :=
  writeParams h live (readParams h saved)

/-! Section: EarlyStopping (trainer.py lines 27-64). -/

/-- State of the EarlyStopping object (trainer.py lines 30-37). -/
structure EarlyStopping where
  patience : Nat
  minDelta : ℚ
  mode : String
  counter : Nat
  bestScore : Option ℚ
  shouldStop : Bool
  bestState : Option StateDict
deriving DecidableEq

/-- `EarlyStopping.__init__` (trainer.py lines 30-37); defaults in the source
are patience=10, min_delta=0.0001, mode='min'. -/
def initEarlyStopping (patience : Nat) (minDelta : ℚ) (mode : String) :
    EarlyStopping :=
  { patience := patience, minDelta := minDelta, mode := mode,
    counter := 0, bestScore := none, shouldStop := false, bestState := none }

/-- `EarlyStopping._is_improved` (trainer.py lines 58-64). -/
def EarlyStopping.isImproved (es : EarlyStopping) (score : ℚ) : Bool :=
  match es.bestScore with
  | none => true
  | some b =>
      if es.mode = "min" then decide (score < b - es.minDelta)
      else decide (score > b + es.minDelta)

/-- `EarlyStopping.__call__` (trainer.py lines 39-56).  Returns the updated
object together with the returned `self.should_stop` value.  The checkpoint is
captured as `model.state_dict().copy()`, a shallow copy of tensor references. -/
def EarlyStopping.call (es : EarlyStopping) (score : ℚ) (model : StateDict) :
    EarlyStopping × Bool :=
  match es.bestScore with
  | none =>
      ({ es with bestScore := some score,
                 bestState := some (dictCopy (stateDict model)) }, false)
  | some _ =>
      if es.isImproved score then
        let es' := { es with bestScore := some score,
                             bestState := some (dictCopy (stateDict model)),
                             counter := 0 }
        (es', es'.shouldStop)
      else
        let c := es.counter + 1
        let stop := if es.patience ≤ c then true else es.shouldStop
        let es' := { es with counter := c, shouldStop := stop }
        (es', es'.shouldStop)

/-! Section: ProductionTrainer (trainer.py lines 67-295).

The per-epoch gradient work (`_train_epoch`) and validation
(`_validate_epoch`) call into the injected model, loss and optimizer, which
are external collaborators; one executed epoch is therefore summarised by the
values it writes into the parameter storages and the two losses it reports
(the spec's "synthetic loss sequence" view).  The learning-rate value appended
to the history comes from the external ReduceLROnPlateau scheduler and is
likewise an input. -/

/-- Observable effect of one executed epoch of the training loop. -/
structure EpochOutcome where
  newParams : List ℚ
  trainLoss : ℚ
  valLoss : ℚ
  lr : ℚ
deriving DecidableEq

/-- State of a ProductionTrainer: the storage heap, the live model (references
to its parameter storages), the EarlyStopping object, and the history lists
(trainer.py line 113). -/
structure ProductionTrainer where
  heap : Heap
  model : StateDict
  earlyStopping : EarlyStopping
  trainLossHistory : List ℚ
  valLossHistory : List ℚ
  lrHistory : List ℚ
deriving DecidableEq

/-- `ProductionTrainer.__init__` (trainer.py lines 77-113): fresh histories and
an EarlyStopping with the given patience, mode='min' and the source default
min_delta = 0.0001 (trainer.py line 109). -/
def initTrainer (h : Heap) (model : StateDict) (patience : Nat) :
    ProductionTrainer :=
  { heap := h, model := model,
    earlyStopping := initEarlyStopping patience (1/10000) "min",
    trainLossHistory := [], valLossHistory := [], lrHistory := [] }

/-- `_train_epoch`'s effect on the parameter storages: the optimizer steps
write the epoch's resulting parameter values in place (trainer.py line 196). -/
def ProductionTrainer.trainEpoch (t : ProductionTrainer) (e : EpochOutcome) :
    ProductionTrainer :=
  { t with heap := writeParams t.heap t.model e.newParams }

/-- `_update_training_state` (trainer.py lines 221-238): append the losses and
current learning rate to the history, step the (external) scheduler, then
consult EarlyStopping on the validation loss. -/
def ProductionTrainer.updateTrainingState (t : ProductionTrainer)
    (e : EpochOutcome) : ProductionTrainer × Bool :=
  let t' := { t with trainLossHistory := t.trainLossHistory ++ [e.trainLoss],
                     valLossHistory := t.valLossHistory ++ [e.valLoss],
                     lrHistory := t.lrHistory ++ [e.lr] }
  let r := t'.earlyStopping.call e.valLoss t'.model
  ({ t' with earlyStopping := r.1 }, r.2)

/-- The epoch loop of `train` (trainer.py lines 163-169): the input list stands
for `range(self.epochs)` together with each epoch's observable effect; the loop
breaks as soon as `_update_training_state` reports a stop. -/
def ProductionTrainer.trainLoop :
    ProductionTrainer → List EpochOutcome → ProductionTrainer
  | t, [] => t
  | t, e :: rest =>
      let t1 := t.trainEpoch e
      let r := t1.updateTrainingState e
      if r.2 then r.1 else ProductionTrainer.trainLoop r.1 rest

/-- Python truthiness of `self.early_stopping.best_state` (trainer.py
line 242): None and the empty dict are falsy. -/
def bestStateTruthy : Option StateDict → Bool
  | none => false
  | some d => !d.addrs.isEmpty

/-- `_finalize_training` (trainer.py lines 240-246): load the recorded best
state back into the live model. -/
def ProductionTrainer.finalizeTraining (t : ProductionTrainer) :
    ProductionTrainer :=
  if bestStateTruthy t.earlyStopping.bestState then
    match t.earlyStopping.bestState with
    | some best => { t with heap := loadStateDict t.heap t.model best }
    | none => t
  else t

/-- `train` (trainer.py lines 154-172): run the epoch loop, finalize, and
return (the trainer holding) `self.model`. -/
def ProductionTrainer.train (t : ProductionTrainer)
    (run : List EpochOutcome) : ProductionTrainer :=
  (ProductionTrainer.trainLoop t run).finalizeTraining

/-- The parameter values of the model returned by `train`. -/
def ProductionTrainer.trainedParams (t : ProductionTrainer) : List ℚ :=
  readParams t.heap t.model

/-- The `trainHistory` block of the metadata side-car written by
`_save_metadata` (trainer.py lines 282-286): last recorded train/validation
loss (None when the history is empty) and the number of recorded epochs. -/
structure TrainHistorySummary where
  finalTrainLoss : Option ℚ
  finalValLoss : Option ℚ
  epochs : Nat
deriving DecidableEq

/-- `_save_metadata`'s training-history summary (trainer.py lines 282-286). -/
def ProductionTrainer.trainHistorySummary (t : ProductionTrainer) :
    TrainHistorySummary :=
  { finalTrainLoss := t.trainLossHistory.getLast?,
    finalValLoss := t.valLossHistory.getLast?,
    epochs := t.trainLossHistory.length }

/-! Section: the spec-mandated deep checkpoint, for comparison with the code.

Modelled from the spec: "best model state must be captured as an independent,
deep, immutable copy at the moment of improvement", and the orchestrator
"must restore the model to the last recorded best checkpoint".  The deep
checkpoint records the parameter VALUES at the improving epoch rather than
references into the live storages. -/

/-- Deep (value) copy of the live model's parameters at a given moment: what
the spec requires the checkpoint captured at an improving epoch to be. -/
def deepCheckpoint (h : Heap) (m : StateDict) : List ℚ :=
  readParams h m

/-! Section: normalize_features (data_loader.py lines 22-34).

The per-column standard deviation is the square root of the population
variance; square roots of rationals are irrational in general, so the
embedding is parametric in the square-root routine.  The claims need nothing
about it beyond sqrtFn 0 = 0, which IEEE-754 square root guarantees exactly. -/

/-- A feature table: list of rows, each row the per-column values. -/
abbrev Table := List (List ℚ)

/-- Column j of the feature table (the numpy axis-0 view). -/
def column (t : Table) (j : Nat) : List ℚ := t.map (fun r => r.getD j 0)

/-- numpy mean of a vector. -/
def vecMean (xs : List ℚ) : ℚ := xs.sum / xs.length

/-- numpy population variance of a vector (the std squared, ddof = 0). -/
def vecVariance (xs : List ℚ) : ℚ :=
  ((xs.map (fun x => (x - vecMean xs) ^ 2)).sum) / xs.length

/-- Number of feature columns (the row width). -/
def nCols (t : Table) : Nat := (t.headD []).length

/-- Return value of normalize_features: the normalized table and the params
dict with keys means and stds. -/
structure NormalizeResult where
  normalized : Table
  means : List ℚ
  stds : List ℚ

/-- normalize_features (data_loader.py lines 22-34): per-column mean and std,
the clamp `s if s > 1e-6 else 1.0`, then (x - mean) / std per column. -/
def normalize_features (sqrtFn : ℚ → ℚ) (t : Table) : NormalizeResult :=
  let means := (List.range (nCols t)).map (fun j => vecMean (column t j))
  let rawStds := (List.range (nCols t)).map
    (fun j => sqrtFn (vecVariance (column t j)))
  let stds := rawStds.map (fun s => if s > 1/1000000 then s else 1)
  { normalized := t.map (fun r =>
      (List.range (nCols t)).map
        (fun j => (r.getD j 0 - means.getD j 0) / stds.getD j 1)),
    means := means, stds := stds }

/-! Section: prepare_data (trainer.py lines 130-152). -/

/-- Modelled from the spec: the seeded pseudo-random permutation generator
(numpy's default_rng(seed).permutation(n), trainer.py lines 92 and 137), an
external collaborator specified at its interface (spec 4.1 and 4.3): a
deterministic function of the seed producing a permutation of the row
indices.  Concretely modelled as a Fisher-Yates shuffle driven by a 64-bit
linear-congruential generator. -/
def lcgNext (s : Nat) : Nat :=
  (6364136223846793005 * s + 1442695040888963407) % (2 ^ 64)

/-- Fisher-Yates draw loop: repeatedly pick a pseudo-random element of the
remaining pool.  The fuel argument starts at the pool size. -/
def fisherYatesAux : Nat → Nat → List Nat → List Nat → List Nat
  | 0, _, acc, _ => acc
  | fuel + 1, s, acc, pool =>
      if pool.isEmpty then acc
      else
        let s' := lcgNext s
        let i := s' % pool.length
        fisherYatesAux fuel s' (pool.getD i 0 :: acc) (pool.eraseIdx i)

/-- The seeded permutation of the row indices 0..n-1. -/
def seededPermutation (seed n : Nat) : List Nat :=
  fisherYatesAux n seed [] (List.range n)

/-- Python int(): truncation toward zero. -/
def pyInt (q : ℚ) : Int := if 0 ≤ q then ⌊q⌋ else -⌊-q⌋

/-- prepare_data (trainer.py lines 130-152) on row indices: permute the
indices with the trainer's seeded generator, slice at
split_idx = int(n * (1 - val_split)).  Returns (train, validation) index
lists.  A negative split index (impossible for 0 ≤ valSplit ≤ 1) would engage
python's negative-slice semantics, outside this model. -/
def prepareData (n seed : Nat) (valSplit : ℚ) : List Nat × List Nat :=
  let indices := seededPermutation seed n
  let splitIdx := (pyInt ((n : ℚ) * (1 - valSplit))).toNat
  (indices.take splitIdx, indices.drop splitIdx)

/-! Section: explain_model.py. -/

/-- Parsed JSON input: a dict of named numeric features, in insertion order.
Python dict keys are unique. -/
abbrev InputData := List (String × ℚ)

/-- Python string comparison: lexicographic on code points. -/
def charListLt : List Char → List Char → Bool
  | [], [] => false
  | [], _ :: _ => true
  | _ :: _, [] => false
  | a :: as, b :: bs =>
      if a.toNat < b.toNat then true
      else if b.toNat < a.toNat then false
      else charListLt as bs

/-- Python str comparison, on the underlying character lists. -/
def pyStrLt (a b : String) : Bool := charListLt a.data b.data

/-- Insert a string into an ascending sorted list of strings. -/
def insertStr (x : String) : List String → List String
  | [] => [x]
  | y :: ys => if pyStrLt y x then y :: insertStr x ys else x :: y :: ys

/-- sorted(input_data.keys()): ascending code-point order. -/
def sortedKeys (l : List String) : List String := l.foldr insertStr []

/-- Python dict access input_data[k] (the key is always present: the keys
iterated over come from the dict itself). -/
def dictGet (d : InputData) (k : String) : ℚ := (d.lookup k).getD 0

/-- One entry of the featureImportance list: feature, abs importance and the
raw input value. -/
structure ImportanceEntry where
  feature : String
  importance : ℚ
  value : ℚ
deriving DecidableEq

/-- One entry of the topContributors lists. -/
structure Contributor where
  feature : String
  contribution : ℚ
deriving DecidableEq

/-- The explanation result object emitted by either path.  The primary (SHAP)
path's dict carries no isMock key; that absence is modelled as
isMock = false. -/
structure Explanation where
  featureNames : List String
  shapValues : List ℚ
  expectedValue : ℚ
  prediction : ℚ
  featureImportance : List ImportanceEntry
  topPositive : List Contributor
  topNegative : List Contributor
  isMock : Bool
deriving DecidableEq

/-- python sorted(items, key = k, reverse = True): stable sort, descending in
the key. -/
def sortDescBy {α : Type} (key : α → ℚ) (l : List α) : List α :=
  List.insertionSort (fun a b => key b ≤ key a) l

/-- Result assembly of generate_shap_explanation (explain_model.py lines
79-115), given the flattened attribution values produced by the external
explainer, the explainer's expected (base) value, and the prediction output
of the model on the input row. -/
def shapAssemble (inputData : InputData) (sv : List ℚ)
    (expectedValue predOut : ℚ) : Explanation :=
  let featureNames := sortedKeys (inputData.map (·.1))
  let importancePairs := featureNames.enum.map (fun p => (p.2, |sv.getD p.1 0|))
  let sortedImportance := sortDescBy (fun p => p.2) importancePairs
  { featureNames := featureNames,
    shapValues := sv,
    expectedValue := expectedValue,
    prediction := predOut,
    featureImportance :=
      sortedImportance.map (fun p => ⟨p.1, p.2, dictGet inputData p.1⟩),
    topPositive :=
      (((List.range sv.length).filter (fun i => decide (0 < sv.getD i 0))).map
        (fun i => (⟨featureNames.getD i "", sv.getD i 0⟩ : Contributor))).take 5,
    topNegative :=
      (((List.range sv.length).filter (fun i => decide (sv.getD i 0 < 0))).map
        (fun i => (⟨featureNames.getD i "", sv.getD i 0⟩ : Contributor))).take 5,
    isMock := false }

/-- generate_mock_explanation (explain_model.py lines 118-163). -/
def generate_mock_explanation (modelType : String) (inputData : InputData) :
    Explanation :=
  let featureNames := sortedKeys (inputData.map (·.1))
  let bc : ℚ × List (String × ℚ) :=
    if modelType = "waste_predictor" then
      (15, featureNames.map (fun n =>
        (n, if 0 < dictGet inputData n then dictGet inputData n * (1/100)
            else 0)))
    else if modelType = "time_estimator" then
      (30, featureNames.map (fun n => (n, dictGet inputData n * (5/100))))
    else
      (1/2, featureNames.map (fun n => (n, dictGet inputData n * (2/100))))
  let baseline := bc.1
  let contribs := bc.2
  let sortedContribs := sortDescBy (fun p => |p.2|) contribs
  { featureNames := featureNames,
    shapValues := featureNames.map (fun n => (contribs.lookup n).getD 0),
    expectedValue := baseline,
    prediction := baseline + (contribs.map (·.2)).sum,
    featureImportance :=
      sortedContribs.map (fun p => ⟨p.1, |p.2|, dictGet inputData p.1⟩),
    topPositive :=
      ((sortedContribs.filter (fun p => decide (0 < p.2))).map
        (fun p => (⟨p.1, p.2⟩ : Contributor))).take 5,
    topNegative :=
      ((sortedContribs.filter (fun p => decide (p.2 < 0))).map
        (fun p => (⟨p.1, p.2⟩ : Contributor))).take 5,
    isMock := true }

/-- The single-row input matrix that generate_shap_explanation builds and
feeds to the model's prediction function (explain_model.py lines 60-61 and
100): the raw input values ordered by sorted feature name.  No normalization
parameters are consulted anywhere in explain_model.py. -/
def inputArrayRow (inputData : InputData) : List ℚ :=
  (sortedKeys (inputData.map (·.1))).map (fun k => dictGet inputData k)

/-- The z-score transform with previously persisted parameters, exactly as
normalize_features applies it (data_loader.py line 32): what the spec says
must be applied to the input values at explanation time. -/
def applyNormalization (row means stds : List ℚ) : List ℚ :=
  (row.zip (means.zip stds)).map (fun p => (p.1 - p.2.1) / p.2.2)

/-- Outcome of one Python-level step: a normal value or a raised exception
carrying its message.  Every exception modelled here is an Exception
subclass, so python's `except Exception` clauses catch all of them. -/
inductive PyResult (α : Type) where
  | ok : α → PyResult α
  | exc : String → PyResult α
deriving DecidableEq

/-- Outcomes of the external calls made by explain_model.py's primary path,
each a potential exception point, in source order: the SHAP availability
flag, the ONNX availability flag, os.path.exists on the model,
InferenceSession construction
(line 38), np.array input construction (line 61), session.get_inputs in
create_prediction_function (line 44), the KernelExplainer construction plus
shap_values call (lines 74-75), float(explainer.expected_value) (line 80),
and the predict_fn call of the result assembly (line 100). -/
structure ExplainEnv where
  shapAvailable : Bool
  onnxAvailable : Bool
  modelFileExists : Bool
  loadModel : PyResult Unit
  buildInputArray : PyResult Unit
  buildPredictFn : PyResult Unit
  attribution : PyResult (List ℚ)
  expectedValue : PyResult ℚ
  finalPredict : PyResult ℚ
deriving DecidableEq

/-- generate_shap_explanation (explain_model.py lines 56-115) at the level of
its exception flow: only the explainer construction and the shap_values call
sit inside the try/except (lines 72-77), which returns (None, str(e)); every
other step raises through to the caller. -/
def generateShapExplanation (env : ExplainEnv) (inputData : InputData) :
    PyResult (Option Explanation × Option String) :=
  match env.buildInputArray with
  | .exc m => .exc m
  | .ok _ =>
    match env.buildPredictFn with
    | .exc m => .exc m
    | .ok _ =>
      match env.attribution with
      | .exc m => .ok (none, some m)
      | .ok sv =>
        match env.expectedValue with
        | .exc m => .exc m
        | .ok ev =>
          match env.finalPredict with
          | .exc m => .exc m
          | .ok pr => .ok (some (shapAssemble inputData sv ev pr), none)

/-- What main prints: either the explanation result object or a JSON object
with an error key. -/
inductive MainOutput where
  | resultJson : Explanation → MainOutput
  | errorJson : String → MainOutput
deriving DecidableEq

/-- Printed output together with the process exit code. -/
structure ProcessExit where
  output : MainOutput
  exitCode : Nat
deriving DecidableEq

/-- main (explain_model.py lines 177-223) after argument parsing (argument
parsing is out of scope per spec section 1).  parsedInput is the outcome of
json.loads on the input string; a JSONDecodeError lands in the first except
clause, every other modelled exception in the generic one; both print an
error JSON object and exit 1.  Background-data loading (lines 166-174)
catches its own failures internally and is absorbed into the attribution
outcome. -/
def mainRun (env : ExplainEnv) (modelType : String)
    (parsedInput : PyResult InputData) : ProcessExit :=
  match parsedInput with
  | .exc m => ⟨.errorJson ("Invalid JSON input: " ++ m), 1⟩
  | .ok inputData =>
    if env.shapAvailable && env.onnxAvailable && env.modelFileExists then
      match env.loadModel with
      | .exc m => ⟨.errorJson ("Explanation failed: " ++ m), 1⟩
      | .ok _ =>
        match generateShapExplanation env inputData with
        | .exc m => ⟨.errorJson ("Explanation failed: " ++ m), 1⟩
        | .ok (some r, _) => ⟨.resultJson r, 0⟩
        | .ok (none, _) =>
            ⟨.resultJson (generate_mock_explanation modelType inputData), 0⟩
    else
      ⟨.resultJson (generate_mock_explanation modelType inputData), 0⟩

/-! Section: claim C1 (best-checkpoint restoration). -/

/-- The parameter values the recorded best checkpoint holds right now: the
checkpoint's tensors dereferenced against the current heap. -/
def recordedCheckpointValues (t : ProductionTrainer) : List ℚ :=
  match t.earlyStopping.bestState with
  | some d => readParams t.heap d
  | none => []

/-- Failing run for claim C1: one model parameter stored at address 0; epoch 1
attains validation loss 1 (the best epoch) having written parameter value 10;
epoch 2 regresses to validation loss 2 having written parameter value 20. -/
def c1Model : StateDict := ⟨[0]⟩

/-- Epoch 1 of the C1 failing run. -/
def c1Epoch1 : EpochOutcome := ⟨[10], 1, 1, 1/1000⟩

/-- Epoch 2 of the C1 failing run. -/
def c1Epoch2 : EpochOutcome := ⟨[20], 2, 2, 1/1000⟩

/-- The C1 failing run: default trainer patience 15, two executed epochs. -/
def c1Run : ProductionTrainer :=
  (initTrainer [0] c1Model 15).train [c1Epoch1, c1Epoch2]

/-- C1: the claim fails on the code.  At the recorded best epoch (epoch 1,
validation loss 1) the live parameters were [10], so an independent deep copy
would hold [10]; but `train` returns parameters [20] — the final epoch's — and
the recorded checkpoint itself dereferences to [20], because
`state_dict().copy()` shallow-copies tensor references into the live storages
that epoch 2 then mutates in place. -/
theorem C1_shallow_checkpoint_returns_final_params :
    deepCheckpoint ((initTrainer [0] c1Model 15).trainEpoch c1Epoch1).heap
      c1Model = [10] ∧
    c1Run.earlyStopping.bestScore = some 1 ∧
    c1Run.trainedParams = [20] ∧
    recordedCheckpointValues c1Run = [20] ∧
    c1Run.trainedParams ≠ [10] := by
  norm_num [c1Run, c1Model, c1Epoch1, c1Epoch2, ProductionTrainer.train,
    ProductionTrainer.trainLoop, ProductionTrainer.trainEpoch,
    ProductionTrainer.updateTrainingState, ProductionTrainer.finalizeTraining,
    ProductionTrainer.trainedParams, initTrainer, initEarlyStopping,
    EarlyStopping.call, EarlyStopping.isImproved, writeParams, readParams,
    loadStateDict, stateDict, dictCopy, bestStateTruthy,
    recordedCheckpointValues, deepCheckpoint]

/-! Section: claim C3 (normalization skipped at explanation time). -/

/-- C3: the claim fails on the code.  For the input record a = 10 and persisted
normalization parameters mean 4 and std 2, the row fed to the compiled model's
scoring function is the raw [10], whereas reapplying the persisted z-score
transform would feed [3]; explain_model.py never consults the metadata
side-car. -/
theorem C3_explanation_feeds_raw_not_normalized :
    inputArrayRow [("a", 10)] = [10] ∧
    applyNormalization [10] [4] [2] = [3] ∧
    inputArrayRow [("a", 10)] ≠ applyNormalization [10] [4] [2] := by
  norm_num [inputArrayRow, applyNormalization, sortedKeys, insertStr, dictGet,
    List.lookup]

/-! Section: claim C5 (fallback example for waste_predictor). -/

/-- The fallback explanation of the C5 example input. -/
def c5Result : Explanation :=
  generate_mock_explanation "waste_predictor" [("a", 10), ("b", -5)]

/-- C5: for inputData a = 10.0, b = -5.0 under model type waste_predictor the
fallback result has expectedValue 15, carries the fallback marker, gives b the
contribution 0 (non-positive value), and predicts 15 plus the sum of the
per-feature contributions (1/10 for a, 0 for b). -/
theorem C5_fallback_waste_predictor_example :
    c5Result.expectedValue = 15 ∧
    c5Result.isMock = true ∧
    c5Result.featureNames = ["a", "b"] ∧
    c5Result.shapValues = [1/10, 0] ∧
    c5Result.prediction = 15 + (1/10 + 0) := by
  have h1 : sortedKeys ["a", "b"] = ["a", "b"] := rfl
  have h2 : dictGet [("a", (10 : ℚ)), ("b", -5)] "a" = 10 := rfl
  have h3 : dictGet [("a", (10 : ℚ)), ("b", -5)] "b" = -5 := rfl
  have h4 : (("a" : String) == "a") = true := rfl
  have h5 : (("b" : String) == "a") = false := rfl
  have h6 : (("b" : String) == "b") = true := rfl
  norm_num [c5Result, generate_mock_explanation, h1, h2, h3, h4, h5, h6,
    List.lookup]

/-! Section: claims C2 and C9 (exception flow of the explanation entry
point). -/

/-- The C2 counterexample environment: every capability present, every primary
step fine except the expected-value extraction of the result assembly, which
raises. -/
def c2Env : ExplainEnv :=
  { shapAvailable := true, onnxAvailable := true, modelFileExists := true,
    loadModel := .ok (), buildInputArray := .ok (), buildPredictFn := .ok (),
    attribution := .ok [1], expectedValue := .exc "boom",
    finalPredict := .ok 0 }

/-- C2: the claim fails on the code.  When the primary path raises during
result assembly (extracting the explainer's expected value), main's generic
handler surfaces the failure to the caller as an error object with exit code
1 instead of returning the fallback explanation. -/
theorem C2_counterexample_assembly_exception_surfaces :
    mainRun c2Env "waste_predictor" (.ok [("a", 1)]) =
      ⟨.errorJson "Explanation failed: boom", 1⟩ ∧
    mainRun c2Env "waste_predictor" (.ok [("a", 1)]) ≠
      ⟨.resultJson (generate_mock_explanation "waste_predictor" [("a", 1)]),
        0⟩ := by
  have h0 : mainRun c2Env "waste_predictor" (.ok [("a", 1)]) =
      ⟨.errorJson "Explanation failed: boom", 1⟩ := rfl
  refine ⟨h0, ?_⟩
  rw [h0]
  intro h
  simp at h

/-- C2 amended: only exceptions raised by the explainer construction and the
attribution call (the inner try of generate_shap_explanation) make the engine
discard the partial result and return the fallback explanation; exceptions at
model loading, input-array construction, prediction-function creation, or
result assembly are surfaced to the caller as a structured error object with
exit code 1. -/
theorem C2_amended_exception_flow (mt : String) (input : InputData)
    (m : String) (bia bpf : PyResult Unit) (att : PyResult (List ℚ))
    (ev fp : PyResult ℚ) (sv : List ℚ) (q : ℚ) :
    (mainRun ⟨true, true, true, .ok (), .ok (), .ok (), .exc m, ev, fp⟩ mt
        (.ok input) =
      ⟨.resultJson (generate_mock_explanation mt input), 0⟩) ∧
    (mainRun ⟨true, true, true, .exc m, bia, bpf, att, ev, fp⟩ mt (.ok input) =
      ⟨.errorJson ("Explanation failed: " ++ m), 1⟩) ∧
    (mainRun ⟨true, true, true, .ok (), .exc m, bpf, att, ev, fp⟩ mt
        (.ok input) =
      ⟨.errorJson ("Explanation failed: " ++ m), 1⟩) ∧
    (mainRun ⟨true, true, true, .ok (), .ok (), .exc m, att, ev, fp⟩ mt
        (.ok input) =
      ⟨.errorJson ("Explanation failed: " ++ m), 1⟩) ∧
    (mainRun ⟨true, true, true, .ok (), .ok (), .ok (), .ok sv, .exc m, fp⟩ mt
        (.ok input) =
      ⟨.errorJson ("Explanation failed: " ++ m), 1⟩) ∧
    (mainRun ⟨true, true, true, .ok (), .ok (), .ok (), .ok sv, .ok q, .exc m⟩
        mt (.ok input) =
      ⟨.errorJson ("Explanation failed: " ++ m), 1⟩) :=
  ⟨rfl, rfl, rfl, rfl, rfl, rfl⟩

/-- C9: malformed input JSON always yields the error JSON object with exit
code 1, and every invocation of the entry point terminates in exactly one of
two shapes — a result object with exit code 0 or an error object with exit
code 1 — never an unstructured crash. -/
theorem C9_structured_error_or_result (env : ExplainEnv) (mt m : String)
    (parsed : PyResult InputData) :
    mainRun env mt (.exc m) =
      ⟨.errorJson ("Invalid JSON input: " ++ m), 1⟩ ∧
    ((∃ r, mainRun env mt parsed = ⟨.resultJson r, 0⟩) ∨
     (∃ e, mainRun env mt parsed = ⟨.errorJson e, 1⟩)) := by
  refine ⟨rfl, ?_⟩
  obtain ⟨sa, oa, mf, lm, bia, bpf, att, ev, fp⟩ := env
  cases parsed with
  | exc m' => exact Or.inr ⟨_, rfl⟩
  | ok d =>
    cases sa <;> cases oa <;> cases mf <;> cases lm <;> cases bia <;>
      cases bpf <;> cases att <;> cases ev <;> cases fp <;>
      first
        | exact Or.inl ⟨_, rfl⟩
        | exact Or.inr ⟨_, rfl⟩

/-! Section: claim C4 (EarlyStopping on decreasing score sequences). -/

/-- One EarlyStopping call per epoch over a score sequence (lower is better),
as the trainer performs it. -/
def esRun (es : EarlyStopping) (scores : List ℚ) (model : StateDict) :
    EarlyStopping :=
  scores.foldl (fun e s => (e.call s model).1) es

/-- Strictly decreasing score sequence. -/
def strictlyDecreasing : List ℚ → Prop
  | [] => True
  | [_] => True
  | a :: b :: rest => b < a ∧ strictlyDecreasing (b :: rest)

/-- Each score beats the running best by more than delta, starting from best
score b. -/
def improvesFrom (δ : ℚ) : ℚ → List ℚ → Prop
  | _, [] => True
  | b, s :: rest => s < b - δ ∧ improvesFrom δ s rest

/-- Every score (after the first) beats the previous one by more than delta:
each call improves in EarlyStopping's sense. -/
def improvingSeq (δ : ℚ) : List ℚ → Prop
  | [] => True
  | s :: rest => improvesFrom δ s rest

/-- C4 counterexample: the trainer's EarlyStopping (mode min, the source
default min_delta = 0.0001) with patience 2 stops on the strictly decreasing
sequence 1, 0.99999, 0.99998, because the decrements are smaller than
min_delta and so never count as improvements. -/
theorem C4_counterexample_small_decrements_stop :
    strictlyDecreasing [1, 99999/100000, 99998/100000] ∧
    (esRun (initEarlyStopping 2 (1/10000) "min")
      [1, 99999/100000, 99998/100000] ⟨[0]⟩).shouldStop = true := by
  constructor
  · norm_num [strictlyDecreasing]
  · norm_num [esRun, initEarlyStopping, EarlyStopping.call,
      EarlyStopping.isImproved, dictCopy, stateDict]

/-- An improving call sequence keeps shouldStop false: invariant step. -/
theorem esRun_improvesFrom_not_stopped (model : StateDict)
    (scores : List ℚ) :
    ∀ (es : EarlyStopping) (b : ℚ), es.mode = "min" →
      es.shouldStop = false → es.bestScore = some b →
      improvesFrom es.minDelta b scores →
      (esRun es scores model).shouldStop = false := by
  induction scores with
  | nil =>
      intro es b _ hstop _ _
      simpa [esRun] using hstop
  | cons s rest ih =>
      intro es b hmode hstop hbest himp
      obtain ⟨hlt, hrest⟩ := himp
      have himpr : es.isImproved s = true := by
        simp [EarlyStopping.isImproved, hbest, hmode, hlt]
      have hstep : esRun es (s :: rest) model =
          esRun ((es.call s model).1) rest model := rfl
      rw [hstep]
      have hcall : (es.call s model).1 =
          { es with bestScore := some s,
                    bestState := some (dictCopy (stateDict model)),
                    counter := 0 } := by
        simp [EarlyStopping.call, hbest, himpr]
      rw [hcall]
      exact ih _ s hmode hstop rfl hrest

/-- C4 amended: for every patience, every improvement margin delta, and every
score sequence in which each score beats its predecessor by more than delta,
the stopped flag is never true at any point (over any prefix of the calls).
Strict decrease alone does not suffice: decrements at or below min_delta do
not count as improvements (see the counterexample). -/
theorem C4_amended_improving_never_stops (patience : Nat) (δ : ℚ)
    (model : StateDict) (scores pre : List ℚ) (hpre : pre <+: scores)
    (himp : improvingSeq δ scores) :
    (esRun (initEarlyStopping patience δ "min") pre model).shouldStop
      = false := by
  obtain ⟨tail, htail⟩ := hpre
  cases pre with
  | nil => rfl
  | cons s pre' =>
      cases scores with
      | nil => simp at htail
      | cons s0 rest =>
          have hs : s0 = s := by
            have := congrArg (fun l => l.headD 0) htail
            simpa using this.symm
          subst hs
          have hrest : rest = pre' ++ tail := by
            have := congrArg List.tail htail
            simpa using this.symm
          have himp' : improvesFrom δ s0 pre' := by
            have h0 : improvesFrom δ s0 (pre' ++ tail) := by
              rw [← hrest]; exact himp
            clear hrest htail himp
            induction pre' generalizing s0 with
            | nil => trivial
            | cons x xs ih => exact ⟨h0.1, ih x h0.2⟩
          have hfirst : esRun (initEarlyStopping patience δ "min")
              (s0 :: pre') model =
              esRun { initEarlyStopping patience δ "min" with
                        bestScore := some s0,
                        bestState := some (dictCopy (stateDict model)) }
                pre' model := by
            simp [esRun, EarlyStopping.call, initEarlyStopping]
          rw [hfirst]
          exact esRun_improvesFrom_not_stopped model pre' _ s0 rfl rfl rfl
            himp'

/-- Witness for the amended C4: a concrete improving sequence and prefix. -/
theorem C4_amended_witness :
    ([1, 1/2] <+: [1, 1/2, (0 : ℚ)]) ∧
    improvingSeq (1/10000) [1, 1/2, 0] ∧
    (esRun (initEarlyStopping 15 (1/10000) "min") [1, 1/2] ⟨[]⟩).shouldStop
      = false :=
  ⟨⟨[0], rfl⟩, by norm_num [improvingSeq, improvesFrom],
   C4_amended_improving_never_stops 15 (1/10000) ⟨[]⟩ [1, 1/2, 0] [1, 1/2]
     ⟨[0], rfl⟩ (by norm_num [improvingSeq, improvesFrom])⟩

/-! Section: claim C6 (ordering invariants of the explanation result). -/

/-- A list is sorted non-increasingly in the given key. -/
def sortedDescBy {α : Type} (key : α → ℚ) (l : List α) : Prop :=
  l.Pairwise (fun a b => key b ≤ key a)

/-- A list is sorted non-decreasingly in the given key. -/
def sortedAscBy {α : Type} (key : α → ℚ) (l : List α) : Prop :=
  l.Pairwise (fun a b => key a ≤ key b)

/-- sortDescBy sorts: its output is non-increasing in the key. -/
theorem sortDescBy_pairwise {α : Type} (key : α → ℚ) (l : List α) :
    sortedDescBy key (sortDescBy key l) := by
  haveI htot : IsTotal α (fun a b => key b ≤ key a) :=
    ⟨fun a b => le_total (key b) (key a)⟩
  haveI htrans : IsTrans α (fun a b => key b ≤ key a) :=
    ⟨fun a b c h1 h2 => le_trans h2 h1⟩
  exact List.sorted_insertionSort _ l

/-- Taking at most 5 elements yields at most 5 elements. -/
theorem take5_length_le {α : Type} (l : List α) : (l.take 5).length ≤ 5 := by
  rw [List.length_take]
  exact min_le_left _ _

/-- The featureImportance field of the primary-path result, unfolded. -/
theorem shapAssemble_featureImportance (d : InputData) (sv : List ℚ)
    (ev p : ℚ) :
    (shapAssemble d sv ev p).featureImportance =
      (sortDescBy (fun q => q.2)
        ((sortedKeys (d.map (·.1))).enum.map
          (fun q => (q.2, |sv.getD q.1 0|)))).map
        (fun q => ⟨q.1, q.2, dictGet d q.1⟩) := rfl

/-- The topPositive field of the primary-path result, unfolded. -/
theorem shapAssemble_topPositive (d : InputData) (sv : List ℚ) (ev p : ℚ) :
    (shapAssemble d sv ev p).topPositive =
      (((List.range sv.length).filter (fun i => decide (0 < sv.getD i 0))).map
        (fun i => (⟨(sortedKeys (d.map (·.1))).getD i "", sv.getD i 0⟩ :
          Contributor))).take 5 := rfl

/-- The topNegative field of the primary-path result, unfolded. -/
theorem shapAssemble_topNegative (d : InputData) (sv : List ℚ) (ev p : ℚ) :
    (shapAssemble d sv ev p).topNegative =
      (((List.range sv.length).filter (fun i => decide (sv.getD i 0 < 0))).map
        (fun i => (⟨(sortedKeys (d.map (·.1))).getD i "", sv.getD i 0⟩ :
          Contributor))).take 5 := rfl

/-- The ranked and top fields of the fallback result, unfolded over its
per-model-type contributions list. -/
theorem mock_fields_eq (mt : String) (d : InputData) :
    ∃ contribs : List (String × ℚ),
      (generate_mock_explanation mt d).featureImportance =
        (sortDescBy (fun p => |p.2|) contribs).map
          (fun p => ⟨p.1, |p.2|, dictGet d p.1⟩) ∧
      (generate_mock_explanation mt d).topPositive =
        (((sortDescBy (fun p => |p.2|) contribs).filter
          (fun p => decide (0 < p.2))).map
          (fun p => (⟨p.1, p.2⟩ : Contributor))).take 5 ∧
      (generate_mock_explanation mt d).topNegative =
        (((sortDescBy (fun p => |p.2|) contribs).filter
          (fun p => decide (p.2 < 0))).map
          (fun p => (⟨p.1, p.2⟩ : Contributor))).take 5 :=
  ⟨_, rfl, rfl, rfl⟩

/-- Members of a filtered-then-mapped-then-capped contributor list built from
positive entries have positive contributions. -/
theorem pos_shape_mem {l : List (String × ℚ)} {c : Contributor}
    (hc : c ∈ ((l.filter (fun p => decide (0 < p.2))).map
      (fun p => (⟨p.1, p.2⟩ : Contributor))).take 5) :
    0 < c.contribution := by
  have hc' := List.mem_of_mem_take hc
  obtain ⟨p, hp, rfl⟩ := List.mem_map.1 hc'
  have h := (List.mem_filter.1 hp).2
  simpa using h

/-- Members of a filtered-then-mapped-then-capped contributor list built from
negative entries have negative contributions. -/
theorem neg_shape_mem {l : List (String × ℚ)} {c : Contributor}
    (hc : c ∈ ((l.filter (fun p => decide (p.2 < 0))).map
      (fun p => (⟨p.1, p.2⟩ : Contributor))).take 5) :
    c.contribution < 0 := by
  have hc' := List.mem_of_mem_take hc
  obtain ⟨p, hp, rfl⟩ := List.mem_map.1 hc'
  have h := (List.mem_filter.1 hp).2
  simpa using h

/-- Members of the primary path's positive top-contributor list have positive
contributions. -/
theorem shap_pos_shape_mem {sv : List ℚ} {names : List String}
    {c : Contributor}
    (hc : c ∈ (((List.range sv.length).filter
      (fun i => decide (0 < sv.getD i 0))).map
      (fun i => (⟨names.getD i "", sv.getD i 0⟩ : Contributor))).take 5) :
    0 < c.contribution := by
  have hc' := List.mem_of_mem_take hc
  obtain ⟨i, hi, rfl⟩ := List.mem_map.1 hc'
  have h := (List.mem_filter.1 hi).2
  simpa using h

/-- Members of the primary path's negative top-contributor list have negative
contributions. -/
theorem shap_neg_shape_mem {sv : List ℚ} {names : List String}
    {c : Contributor}
    (hc : c ∈ (((List.range sv.length).filter
      (fun i => decide (sv.getD i 0 < 0))).map
      (fun i => (⟨names.getD i "", sv.getD i 0⟩ : Contributor))).take 5) :
    c.contribution < 0 := by
  have hc' := List.mem_of_mem_take hc
  obtain ⟨i, hi, rfl⟩ := List.mem_map.1 hc'
  have h := (List.mem_filter.1 hi).2
  simpa using h

/-- Sortedness in a key survives filtering, mapping with a key-preserving
constructor, and capping. -/
theorem sorted_filter_map_take (p : String × ℚ → Bool)
    {l : List (String × ℚ)} (h : sortedDescBy (fun q => |q.2|) l) :
    sortedDescBy (fun c => |c.contribution|)
      (((l.filter p).map (fun q => (⟨q.1, q.2⟩ : Contributor))).take 5) := by
  unfold sortedDescBy at h ⊢
  refine List.Pairwise.sublist (List.take_sublist _ _) ?_
  rw [List.pairwise_map]
  exact List.Pairwise.sublist (List.filter_sublist l) h

/-- The primary-path result of the C6 counterexample input: three features
with attributions 1/2, 1/10 and 3/10, all positive. -/
def c6Result : Explanation :=
  shapAssemble [("a", 1), ("b", 1), ("c", 1)] [1/2, 1/10, 3/10] 0 (9/10)

/-- C6: the claim fails on the code.  The primary path's topPositive list is
emitted in feature-index order, not ordered by signed contribution: with
attributions 1/2, 1/10, 3/10 it is a-then-b-then-c, which is neither
non-increasing nor non-decreasing in the contribution. -/
theorem C6_counterexample_top_list_not_ordered :
    c6Result.topPositive =
      [⟨"a", 1/2⟩, ⟨"b", 1/10⟩, ⟨"c", 3/10⟩] ∧
    ¬ sortedDescBy (fun c => c.contribution) c6Result.topPositive ∧
    ¬ sortedAscBy (fun c => c.contribution) c6Result.topPositive := by
  have hkeys :
      sortedKeys ([("a", (1 : ℚ)), ("b", 1), ("c", 1)].map (·.1)) =
        ["a", "b", "c"] := rfl
  have hr : List.range ([(1 : ℚ)/2, 1/10, 3/10].length) = [0, 1, 2] := rfl
  have htop : c6Result.topPositive =
      [⟨"a", 1/2⟩, ⟨"b", 1/10⟩, ⟨"c", 3/10⟩] := by
    rw [c6Result, shapAssemble_topPositive, hkeys, hr]
    norm_num [List.filter, List.getD]
  refine ⟨htop, ?_, ?_⟩
  · rw [htop]
    unfold sortedDescBy
    norm_num [List.pairwise_cons]
  · rw [htop]
    unfold sortedAscBy
    norm_num [List.pairwise_cons]

/-- C6 amended: on both paths the ranked importance list is non-increasing in
absolute attribution, and the topPositive/topNegative lists have at most 5
entries each, contain only strictly positive resp. strictly negative
contributions, and are disjoint.  On the fallback path topPositive is ordered
by descending signed contribution and topNegative by ascending signed
contribution (both are descending in magnitude); on the primary path the top
lists are in feature-index order and carry no contribution-order guarantee
(see the counterexample). -/
theorem C6_amended_ordering (d : InputData) (sv : List ℚ) (ev p : ℚ)
    (mt : String) :
    sortedDescBy (fun e => e.importance)
      (shapAssemble d sv ev p).featureImportance ∧
    (shapAssemble d sv ev p).topPositive.length ≤ 5 ∧
    (shapAssemble d sv ev p).topNegative.length ≤ 5 ∧
    (∀ c ∈ (shapAssemble d sv ev p).topPositive, 0 < c.contribution) ∧
    (∀ c ∈ (shapAssemble d sv ev p).topNegative, c.contribution < 0) ∧
    (∀ c ∈ (shapAssemble d sv ev p).topPositive,
      c ∉ (shapAssemble d sv ev p).topNegative) ∧
    sortedDescBy (fun e => e.importance)
      (generate_mock_explanation mt d).featureImportance ∧
    (generate_mock_explanation mt d).topPositive.length ≤ 5 ∧
    (generate_mock_explanation mt d).topNegative.length ≤ 5 ∧
    (∀ c ∈ (generate_mock_explanation mt d).topPositive,
      0 < c.contribution) ∧
    (∀ c ∈ (generate_mock_explanation mt d).topNegative,
      c.contribution < 0) ∧
    (∀ c ∈ (generate_mock_explanation mt d).topPositive,
      c ∉ (generate_mock_explanation mt d).topNegative) ∧
    sortedDescBy (fun c => c.contribution)
      (generate_mock_explanation mt d).topPositive ∧
    sortedAscBy (fun c => c.contribution)
      (generate_mock_explanation mt d).topNegative := by
  obtain ⟨contribs, hfi, htp, htn⟩ := mock_fields_eq mt d
  refine ⟨?_, ?_, ?_, ?_, ?_, ?_, ?_, ?_, ?_, ?_, ?_, ?_, ?_, ?_⟩
  · rw [shapAssemble_featureImportance]
    unfold sortedDescBy
    rw [List.pairwise_map]
    exact sortDescBy_pairwise (fun q : String × ℚ => q.2) _
  · rw [shapAssemble_topPositive]; exact take5_length_le _
  · rw [shapAssemble_topNegative]; exact take5_length_le _
  · intro c hc
    rw [shapAssemble_topPositive] at hc
    exact shap_pos_shape_mem hc
  · intro c hc
    rw [shapAssemble_topNegative] at hc
    exact shap_neg_shape_mem hc
  · intro c hc hn
    rw [shapAssemble_topPositive] at hc
    rw [shapAssemble_topNegative] at hn
    exact absurd (shap_neg_shape_mem hn)
      (not_lt.2 (le_of_lt (shap_pos_shape_mem hc)))
  · rw [hfi]
    unfold sortedDescBy
    rw [List.pairwise_map]
    exact sortDescBy_pairwise (fun q : String × ℚ => |q.2|) contribs
  · rw [htp]; exact take5_length_le _
  · rw [htn]; exact take5_length_le _
  · intro c hc
    rw [htp] at hc
    exact pos_shape_mem hc
  · intro c hc
    rw [htn] at hc
    exact neg_shape_mem hc
  · intro c hc hn
    rw [htp] at hc
    rw [htn] at hn
    exact absurd (neg_shape_mem hn) (not_lt.2 (le_of_lt (pos_shape_mem hc)))
  · rw [htp]
    have hs := sorted_filter_map_take (fun q => decide (0 < q.2))
      (sortDescBy_pairwise (fun q : String × ℚ => |q.2|) contribs)
    unfold sortedDescBy at hs ⊢
    refine hs.imp_of_mem ?_
    intro a b ha hb hab
    have hpa := pos_shape_mem ha
    have hpb := pos_shape_mem hb
    calc b.contribution = |b.contribution| := (abs_of_pos hpb).symm
      _ ≤ |a.contribution| := hab
      _ = a.contribution := abs_of_pos hpa
  · rw [htn]
    have hs := sorted_filter_map_take (fun q => decide (q.2 < 0))
      (sortDescBy_pairwise (fun q : String × ℚ => |q.2|) contribs)
    unfold sortedAscBy
    unfold sortedDescBy at hs
    refine hs.imp_of_mem ?_
    intro a b ha hb hab
    have hna := neg_shape_mem ha
    have hnb := neg_shape_mem hb
    have h2 : -b.contribution ≤ -a.contribution := by
      rw [← abs_of_neg hnb, ← abs_of_neg hna]
      exact hab
    linarith

/-! Section: claim C7 (reproducible dataset split). -/

/-- The Fisher-Yates loop with fuel equal to the pool size emits exactly one
index per pool element. -/
theorem fisherYatesAux_length (fuel : Nat) :
    ∀ (s : Nat) (acc pool : List Nat), pool.length = fuel →
      (fisherYatesAux fuel s acc pool).length = acc.length + fuel := by
  induction fuel with
  | zero =>
      intro s acc pool h
      simp [fisherYatesAux]
  | succ n ih =>
      intro s acc pool h
      have hne : pool.isEmpty = false := by
        cases pool with
        | nil => simp at h
        | cons a l => rfl
      have hlen : 0 < pool.length := by
        rw [h]; exact Nat.succ_pos n
      have hi : lcgNext s % pool.length < pool.length :=
        Nat.mod_lt _ hlen
      have herase : (pool.eraseIdx (lcgNext s % pool.length)).length = n := by
        rw [List.length_eraseIdx, if_pos hi, h]
        omega
      have hstep : fisherYatesAux (n + 1) s acc pool =
          if pool.isEmpty then acc
          else fisherYatesAux n (lcgNext s)
            (pool.getD (lcgNext s % pool.length) 0 :: acc)
            (pool.eraseIdx (lcgNext s % pool.length)) := rfl
      rw [hstep, hne, if_neg Bool.false_ne_true]
      rw [ih _ _ _ herase]
      rw [List.length_cons]
      omega

/-- The seeded permutation of n indices has length n. -/
theorem seededPermutation_length (seed n : Nat) :
    (seededPermutation seed n).length = n := by
  have h := fisherYatesAux_length n seed [] (List.range n) (by simp)
  simpa [seededPermutation] using h

/-- C7: with identical (n, seed, fraction) the splitter produces identical
partitions; the train part is cut at floor(n * (1 - fraction)); and the two
parts together are exactly the seeded permutation of the row indices. -/
theorem C7_split_reproducible (n seed : Nat) (f : ℚ) (h0 : 0 ≤ f)
    (h1 : f ≤ 1) :
    prepareData n seed f = prepareData n seed f ∧
    (prepareData n seed f).1.length = (⌊(n : ℚ) * (1 - f)⌋).toNat ∧
    (prepareData n seed f).1 ++ (prepareData n seed f).2 =
      seededPermutation seed n := by
  refine ⟨rfl, ?_, ?_⟩
  · have hq : 0 ≤ (n : ℚ) * (1 - f) := by
      apply mul_nonneg (by positivity)
      linarith
    have hpy : pyInt ((n : ℚ) * (1 - f)) = ⌊(n : ℚ) * (1 - f)⌋ := by
      simp [pyInt, hq]
    have hfl : ⌊(n : ℚ) * (1 - f)⌋ ≤ (n : ℤ) := by
      have hmul : (n : ℚ) * (1 - f) ≤ (n : ℚ) := by nlinarith
      have hcast : ⌊(n : ℚ)⌋ = (n : ℤ) := Int.floor_natCast n
      have := Int.floor_le_floor hmul
      omega
    have hle : (⌊(n : ℚ) * (1 - f)⌋).toNat ≤ n := Int.toNat_le.mpr hfl
    simp only [prepareData, hpy]
    rw [List.length_take, seededPermutation_length]
    exact min_eq_left hle
  · simp only [prepareData]
    exact List.take_append_drop _ _

/-- Witness for C7 at n = 5, seed = 3, fraction = 1/5. -/
theorem C7_witness :
    ((0 : ℚ) ≤ 1/5) ∧ ((1/5 : ℚ) ≤ 1) ∧
    (prepareData 5 3 (1/5) = prepareData 5 3 (1/5) ∧
     (prepareData 5 3 (1/5)).1.length =
       (⌊((5 : Nat) : ℚ) * (1 - 1/5)⌋).toNat ∧
     (prepareData 5 3 (1/5)).1 ++ (prepareData 5 3 (1/5)).2 =
       seededPermutation 3 5) :=
  ⟨by norm_num, by norm_num,
   C7_split_reproducible 5 3 (1/5) (by norm_num) (by norm_num)⟩

/-! Section: claim C8 (zero-variance columns). -/

/-- C8: for a zero-variance column the recorded standard deviation is exactly
1, and no recorded standard deviation (of any column) is zero, so the
per-column division never divides by zero. -/
theorem C8_zero_variance_std_one (sqrtFn : ℚ → ℚ) (t : Table) (j : Nat)
    (hsq : sqrtFn 0 = 0) (hvar : vecVariance (column t j) = 0)
    (hj : j < nCols t) :
    (normalize_features sqrtFn t).stds.getD j 1 = 1 ∧
    ∀ s ∈ (normalize_features sqrtFn t).stds, s ≠ 0 := by
  have hstds : (normalize_features sqrtFn t).stds =
      ((List.range (nCols t)).map
        (fun i => sqrtFn (vecVariance (column t i)))).map
        (fun s => if s > 1/1000000 then s else 1) := rfl
  constructor
  · rw [hstds]
    rw [List.getD_eq_getElem?_getD]
    rw [List.getElem?_map, List.getElem?_map]
    rw [List.getElem?_range hj]
    simp only [Option.map_some', Option.getD_some]
    rw [hvar, hsq]
    norm_num
  · intro s hs
    rw [hstds] at hs
    obtain ⟨x, hx, rfl⟩ := List.mem_map.1 hs
    by_cases hgt : x > 1/1000000
    · rw [if_pos hgt]
      intro h0
      rw [h0] at hgt
      norm_num at hgt
    · rw [if_neg hgt]
      norm_num

/-- Witness for C8: a one-column table whose two rows are equal, with a
square-root routine that is zero at zero. -/
theorem C8_witness :
    ((fun _ : ℚ => (0 : ℚ)) 0 = 0) ∧
    vecVariance (column [[2], [2]] 0) = 0 ∧
    (0 < nCols [[2], [2]]) ∧
    ((normalize_features (fun _ : ℚ => 0) [[2], [2]]).stds.getD 0 1 = 1 ∧
     ∀ s ∈ (normalize_features (fun _ : ℚ => 0) [[2], [2]]).stds, s ≠ 0) :=
  ⟨rfl, by norm_num [vecVariance, column, vecMean],
   by norm_num [nCols],
   C8_zero_variance_std_one (fun _ : ℚ => 0) [[2], [2]] 0 rfl
     (by norm_num [vecVariance, column, vecMean]) (by norm_num [nCols])⟩

/-! Section: claim C10 (metadata records the last executed epoch). -/

/-- Field preservation and stop semantics of one EarlyStopping call made from
an un-stopped state. -/
theorem EarlyStopping.call_spec (es : EarlyStopping) (score : ℚ)
    (m : StateDict) (hstop : es.shouldStop = false) :
    (es.call score m).1.minDelta = es.minDelta ∧
    (es.call score m).1.mode = es.mode ∧
    (es.call score m).2 = (es.call score m).1.shouldStop ∧
    ((es.call score m).2 = true →
      (es.call score m).1.bestScore = es.bestScore ∧
      es.isImproved score = false) := by
  cases hbest : es.bestScore with
  | none =>
      simp [EarlyStopping.call, hbest, hstop]
  | some b =>
      by_cases himp : es.isImproved score = true
      · simp [EarlyStopping.call, hbest, himp, hstop]
      · have himp' : es.isImproved score = false := by
          simpa using himp
        simp [EarlyStopping.call, hbest, himp', hstop]

/-- Projection equations of one `_update_training_state` step. -/
theorem updateTrainingState_fields (t : ProductionTrainer)
    (e : EpochOutcome) :
    (t.updateTrainingState e).1.trainLossHistory =
      t.trainLossHistory ++ [e.trainLoss] ∧
    (t.updateTrainingState e).1.valLossHistory =
      t.valLossHistory ++ [e.valLoss] ∧
    (t.updateTrainingState e).1.earlyStopping =
      (t.earlyStopping.call e.valLoss t.model).1 ∧
    (t.updateTrainingState e).2 =
      (t.earlyStopping.call e.valLoss t.model).2 :=
  ⟨rfl, rfl, rfl, rfl⟩

/-- `_finalize_training` only writes into the heap: the early stopping state
and the history lists are untouched. -/
theorem finalize_preserves (t : ProductionTrainer) :
    t.finalizeTraining.earlyStopping = t.earlyStopping ∧
    t.finalizeTraining.trainLossHistory = t.trainLossHistory ∧
    t.finalizeTraining.valLossHistory = t.valLossHistory := by
  unfold ProductionTrainer.finalizeTraining
  cases hbs : t.earlyStopping.bestState with
  | none => simp [bestStateTruthy, hbs]
  | some d =>
      by_cases he : d.addrs.isEmpty <;>
        simp [bestStateTruthy, hbs, he]

/-- The training loop executes a nonempty prefix of the supplied epochs,
records their losses in order, and if it stopped early, the last recorded
validation loss did not improve on the retained best score. -/
theorem trainLoop_spec (run : List EpochOutcome) :
    ∀ t : ProductionTrainer, t.earlyStopping.shouldStop = false →
      t.earlyStopping.mode = "min" →
      ∃ k, k ≤ run.length ∧ (run ≠ [] → 1 ≤ k) ∧
        (t.trainLoop run).trainLossHistory =
          t.trainLossHistory ++ (run.map (·.trainLoss)).take k ∧
        (t.trainLoop run).valLossHistory =
          t.valLossHistory ++ (run.map (·.valLoss)).take k ∧
        (t.trainLoop run).earlyStopping.minDelta =
          t.earlyStopping.minDelta ∧
        ((t.trainLoop run).earlyStopping.shouldStop = true →
          ∃ b v, (t.trainLoop run).earlyStopping.bestScore = some b ∧
            (t.trainLoop run).valLossHistory.getLast? = some v ∧
            ¬ (v < b - t.earlyStopping.minDelta)) := by
  induction run with
  | nil =>
      intro t hstop _
      refine ⟨0, le_refl 0, by simp, by simp [ProductionTrainer.trainLoop],
        by simp [ProductionTrainer.trainLoop], rfl, ?_⟩
      intro habs
      have : t.earlyStopping.shouldStop = true := habs
      rw [hstop] at this
      cases this
  | cons e rest ih =>
      intro t hstop hmode
      have ht1es : (t.trainEpoch e).earlyStopping = t.earlyStopping := rfl
      have ht1tr : (t.trainEpoch e).trainLossHistory = t.trainLossHistory :=
        rfl
      have ht1val : (t.trainEpoch e).valLossHistory = t.valLossHistory := rfl
      obtain ⟨hu1, hu2, hu3, hu4⟩ :=
        updateTrainingState_fields (t.trainEpoch e) e
      obtain ⟨hc1, hc2, hc3, hc4⟩ :=
        EarlyStopping.call_spec (t.trainEpoch e).earlyStopping e.valLoss
          (t.trainEpoch e).model (by rw [ht1es]; exact hstop)
      have hloop : t.trainLoop (e :: rest) =
          if ((t.trainEpoch e).updateTrainingState e).2 then
            ((t.trainEpoch e).updateTrainingState e).1
          else (((t.trainEpoch e).updateTrainingState e).1.trainLoop rest) :=
        rfl
      by_cases hflag : ((t.trainEpoch e).updateTrainingState e).2 = true
      · -- early stop on this very epoch: one epoch executed
        rw [hloop, if_pos hflag]
        refine ⟨1, by simp, fun _ => le_refl 1, ?_, ?_, ?_, ?_⟩
        · rw [hu1, ht1tr]; simp
        · rw [hu2, ht1val]; simp
        · rw [hu3, hc1, ht1es]
        · intro _
          have hcall : ((t.trainEpoch e).earlyStopping.call e.valLoss
              (t.trainEpoch e).model).2 = true := by
            rw [← hu4]; exact hflag
          obtain ⟨hbkeep, himp⟩ := hc4 hcall
          have hbs : ∃ b, t.earlyStopping.bestScore = some b := by
            cases hb : t.earlyStopping.bestScore with
            | none =>
                simp [ProductionTrainer.trainEpoch, EarlyStopping.isImproved,
                  hb] at himp
            | some b => exact ⟨b, rfl⟩
          obtain ⟨b, hb⟩ := hbs
          refine ⟨b, e.valLoss, ?_, ?_, ?_⟩
          · rw [hu3, hbkeep, ht1es, hb]
          · rw [hu2, ht1val]
            exact List.getLast?_concat _
          · simp [ProductionTrainer.trainEpoch, EarlyStopping.isImproved,
              hb, hmode] at himp
            intro hcon
            linarith
      · -- no stop: recurse into the rest of the epochs
        have hflag' : ((t.trainEpoch e).updateTrainingState e).2 = false := by
          simpa using hflag
        rw [hloop, if_neg (by simp [hflag'])]
        have hstop2 : (((t.trainEpoch e).updateTrainingState e).1
            ).earlyStopping.shouldStop = false := by
          rw [hu3, ← hc3, ← hu4]
          exact hflag'
        have hmode2 : (((t.trainEpoch e).updateTrainingState e).1
            ).earlyStopping.mode = "min" := by
          rw [hu3, hc2, ht1es]
          exact hmode
        obtain ⟨k, hk, _, htr, hval, hdelta, hstopimp⟩ :=
          ih (((t.trainEpoch e).updateTrainingState e).1) hstop2 hmode2
        have hdelta1 : (((t.trainEpoch e).updateTrainingState e).1
            ).earlyStopping.minDelta = t.earlyStopping.minDelta := by
          rw [hu3, hc1, ht1es]
        refine ⟨k + 1, by simpa using Nat.succ_le_succ hk,
          fun _ => Nat.succ_le_succ (Nat.zero_le k), ?_, ?_, ?_, ?_⟩
        · rw [htr, hu1, ht1tr]
          simp [List.take_succ_cons]
        · rw [hval, hu2, ht1val]
          simp [List.take_succ_cons]
        · rw [hdelta, hdelta1]
        · intro hst
          obtain ⟨b, v, hbv, hlast, hni⟩ := hstopimp hst
          exact ⟨b, v, hbv, hlast, by rw [← hdelta1]; exact hni⟩

/-- C10: the metadata's trainHistory block records the losses of the last
executed epoch and the number of executed epochs; when early stopping halted
the run, the recorded final validation loss belongs to a non-improving epoch,
i.e. it does not beat the retained best score by more than min_delta (and so
in general differs from it). -/
theorem C10_metadata_last_executed_epoch (h : Heap) (m : StateDict) (p : Nat)
    (run : List EpochOutcome) (hne : run ≠ []) :
    ∃ k, 1 ≤ k ∧ k ≤ run.length ∧
      ((initTrainer h m p).train run).trainHistorySummary.epochs = k ∧
      ((initTrainer h m p).train run).trainHistorySummary.finalTrainLoss =
        ((run.map (·.trainLoss)).take k).getLast? ∧
      ((initTrainer h m p).train run).trainHistorySummary.finalValLoss =
        ((run.map (·.valLoss)).take k).getLast? ∧
      (((initTrainer h m p).train run).earlyStopping.shouldStop = true →
        ∃ b v,
          ((initTrainer h m p).train run).earlyStopping.bestScore = some b ∧
          ((initTrainer h m p).train run).trainHistorySummary.finalValLoss =
            some v ∧
          ¬ (v < b - 1/10000)) := by
  obtain ⟨k, hk, h1k, htr, hval, hdelta, hstopimp⟩ :=
    trainLoop_spec run (initTrainer h m p) rfl rfl
  obtain ⟨hfe, hft, hfv⟩ :=
    finalize_preserves ((initTrainer h m p).trainLoop run)
  have htrain : (initTrainer h m p).train run =
      ((initTrainer h m p).trainLoop run).finalizeTraining := rfl
  have htr0 : (initTrainer h m p).trainLossHistory = ([] : List ℚ) := rfl
  have hval0 : (initTrainer h m p).valLossHistory = ([] : List ℚ) := rfl
  rw [htr0] at htr
  rw [hval0] at hval
  refine ⟨k, h1k hne, hk, ?_, ?_, ?_, ?_⟩
  · show (((initTrainer h m p).train run).trainLossHistory).length = k
    rw [htrain, hft, htr]
    simp only [List.nil_append]
    rw [List.length_take, List.length_map]
    exact min_eq_left hk
  · show (((initTrainer h m p).train run).trainLossHistory).getLast? = _
    rw [htrain, hft, htr]
    simp
  · show (((initTrainer h m p).train run).valLossHistory).getLast? = _
    rw [htrain, hfv, hval]
    simp
  · intro hst
    rw [htrain, hfe] at hst
    obtain ⟨b, v, hbv, hlast, hni⟩ := hstopimp hst
    refine ⟨b, v, ?_, ?_, hni⟩
    · rw [htrain, hfe]
      exact hbv
    · show (((initTrainer h m p).train run).valLossHistory).getLast? = some v
      rw [htrain, hfv]
      exact hlast

/-- Witness run for C10: with patience 1 the second epoch regresses from
validation loss 1 to 5, so the loop stops there; the recorded final
validation loss 5 differs from the retained best score 1. -/
def c10Run : List EpochOutcome :=
  [⟨[1], 1, 1, 1⟩, ⟨[2], 5, 5, 1⟩, ⟨[3], 7, 7, 1⟩]

/-- Witness for C10 at the concrete regression run. -/
theorem C10_witness :
    c10Run ≠ [] ∧
    (∃ k, 1 ≤ k ∧ k ≤ c10Run.length ∧
      ((initTrainer [0] ⟨[0]⟩ 1).train c10Run).trainHistorySummary.epochs
        = k ∧
      ((initTrainer [0] ⟨[0]⟩ 1).train
          c10Run).trainHistorySummary.finalTrainLoss =
        ((c10Run.map (·.trainLoss)).take k).getLast? ∧
      ((initTrainer [0] ⟨[0]⟩ 1).train
          c10Run).trainHistorySummary.finalValLoss =
        ((c10Run.map (·.valLoss)).take k).getLast? ∧
      (((initTrainer [0] ⟨[0]⟩ 1).train
          c10Run).earlyStopping.shouldStop = true →
        ∃ b v,
          ((initTrainer [0] ⟨[0]⟩ 1).train
              c10Run).earlyStopping.bestScore = some b ∧
          ((initTrainer [0] ⟨[0]⟩ 1).train
              c10Run).trainHistorySummary.finalValLoss = some v ∧
          ¬ (v < b - 1/10000))) :=
  ⟨by simp [c10Run],
   C10_metadata_last_executed_epoch [0] ⟨[0]⟩ 1 c10Run (by simp [c10Run])⟩
